import Mathlib

/-!
Verification of the Refrigeration_Cycle_Calculator repository.

The repository holds three near-duplicate Python front ends over the same
vapor-compression-cycle computation:
  * `refrig_cycle_calc_simple.py`    (console; embedded with suffix `_simple`)
  * `refrig_cycle_calc_GUI.py`       (tkinter GUI; suffix `_gui`)
  * `refrig_cycle_calc_Streamlit.py` (web dashboard; suffix `_st`)

Numbers are modelled as exact rationals (ℚ).  The external CoolProp
property library is modelled as an abstract oracle `PropsSI` passed in as a
parameter; the pint unit registry is modelled by the exact conversion
factors of the units the code names (international-table Btu = 1055.05585262 J,
lbm = 0.45359237 kg, ft = 0.3048 m, standard gravity 9.80665 m/s²,
inch = 0.0254 m; in a compound unit pint treats degF as a 5/9 K increment).
-/

namespace RefrigCycle

/-- Degrees F to kelvin, pint `Q_(value, "degF").to("kelvin")`. -/
def degFtoK (v : ℚ) : ℚ := (v + 459.67) * 5 / 9

/-- kelvin to °F, pint `Q_(value, "kelvin").to("degF")`. -/
def kToDegF (v : ℚ) : ℚ := v * 9 / 5 - 459.67

/-- pascal per psi: (0.45359237 kg · 9.80665 m/s²) / (0.0254 m)². -/
def psiToPa : ℚ := (0.45359237 * 9.80665) / (0.0254 * 0.0254)

/-- Factor (J/kg) per (Btu/lbm): 1055.05585262 / 0.45359237 (= 2326 exactly). -/
def btuLbToJkg : ℚ := 1055.05585262 / 0.45359237

/-- Factor (J/(kg·K)) per (Btu/(lbm·°F)); pint reads the °F here as a 5/9 K increment. -/
def btuLbFToJkgK : ℚ := 1055.05585262 / 0.45359237 * (9 / 5)

/-- Factor (kg/s) per (lbm/min). -/
def lbmMinToKgS : ℚ := 0.45359237 / 60

/-- Factor (lbm/ft³) per (kg/m³). -/
def kgM3ToLbmFt3 : ℚ := (0.3048 * 0.3048 * 0.3048) / 0.45359237

/-- Factor (Btu/hr) per watt. -/
def wattToBtuHr : ℚ := 3600 / 1055.05585262

/-- Source `convert_to_si` of `refrig_cycle_calc_simple.py` (lines 25-34). -/
def convert_to_si (property_name : String) (value : ℚ) : ℚ :=
  if property_name = "T" then degFtoK value
  else if property_name = "P" then value * psiToPa
  else if property_name = "H" then value * btuLbToJkg
  else if property_name = "S" then value * btuLbFToJkgK
  else if property_name = "M" then value * lbmMinToKgS
  else if property_name = "D" then value * kgM3ToLbmFt3
  else value

/-- Source `convert_from_si` of `refrig_cycle_calc_simple.py` (lines 36-46).
Note the `"D"` entry converts kg/m³ → lbm/ft³, the same direction as the
`"D"` entry of `convert_to_si`. -/
def convert_from_si (property_name : String) (value : ℚ) : ℚ :=
  if property_name = "T" then kToDegF value
  else if property_name = "P" then value / psiToPa
  else if property_name = "H" then value / btuLbToJkg
  else if property_name = "S" then value / btuLbFToJkgK
  else if property_name = "M" then value / lbmMinToKgS
  else if property_name = "D" then value * kgM3ToLbmFt3
  else if property_name = "Heat" then value * wattToBtuHr
  else value

/-- Source `convert_to_si` of `refrig_cycle_calc_GUI.py` (lines 26-37): handles
only T, P, H, S, M. -/
def convert_to_si_gui (property_name : String) (value : ℚ) : ℚ :=
  if property_name = "T" then degFtoK value
  else if property_name = "P" then value * psiToPa
  else if property_name = "H" then value * btuLbToJkg
  else if property_name = "S" then value * btuLbFToJkgK
  else if property_name = "M" then value * lbmMinToKgS
  else value

/-- Source `convert_from_si` of `refrig_cycle_calc_GUI.py` (lines 39-51): handles
T, P, H, S, D, Heat. -/
def convert_from_si_gui (property_name : String) (value : ℚ) : ℚ :=
  if property_name = "T" then kToDegF value
  else if property_name = "P" then value / psiToPa
  else if property_name = "H" then value / btuLbToJkg
  else if property_name = "S" then value / btuLbFToJkgK
  else if property_name = "D" then value * kgM3ToLbmFt3
  else if property_name = "Heat" then value * wattToBtuHr
  else value

/-- Source `convert_to_si` of `refrig_cycle_calc_Streamlit.py` (lines 26-37). -/
def convert_to_si_st (property_name : String) (value : ℚ) : ℚ :=
  if property_name = "T" then degFtoK value
  else if property_name = "P" then value * psiToPa
  else if property_name = "H" then value * btuLbToJkg
  else if property_name = "S" then value * btuLbFToJkgK
  else if property_name = "M" then value * lbmMinToKgS
  else value

/-- Source `convert_from_si` of `refrig_cycle_calc_Streamlit.py` (lines 39-51). -/
def convert_from_si_st (property_name : String) (value : ℚ) : ℚ :=
  if property_name = "T" then kToDegF value
  else if property_name = "P" then value / psiToPa
  else if property_name = "H" then value / btuLbToJkg
  else if property_name = "S" then value / btuLbFToJkgK
  else if property_name = "D" then value * kgM3ToLbmFt3
  else if property_name = "Heat" then value * wattToBtuHr
  else value

/-- The CoolProp `PropsSI(output, name1, value1, name2, value2, fluid)`
oracle, abstract: the repository delegates all property lookups to it. -/
def PropsSI : Type := String → String → ℚ → String → ℚ → String → ℚ

/-- The cycle inputs every variant collects: refrigerant, boundary mode and
value for evaporator and condenser, superheat and subcooling in °F,
isentropic efficiency in percent, mass flow in lb/min. -/
structure CycleInputs where
  refrigerant : String
  evapByPressure : Bool
  evapValue : ℚ
  condByPressure : Bool
  condValue : ℚ
  superheatF : ℚ
  subcoolingF : ℚ
  effPct : ℚ
  massFlowLbMin : ℚ
deriving DecidableEq

/-- One state point: T, P, density, h, s (SI). -/
structure StatePoint where
  temp : ℚ
  pressure : ℚ
  density : ℚ
  enthalpy : ℚ
  entropy : ℚ
deriving DecidableEq

/-- States 1-4 plus the derived performance scalars.  `state4_quality` is
`some q` when the variant queries the vapor quality at state 4 and `none`
when it does not; `quality_warning` records whether the variant prints the
two-phase warning. -/
structure CycleResult where
  state1 : StatePoint
  state2 : StatePoint
  state3 : StatePoint
  state4 : StatePoint
  state4_quality : Option ℚ
  quality_warning : Bool
  compressor_work : ℚ
  heat_removed : ℚ
  heat_rejected : ℚ
  COP : ℚ
deriving DecidableEq

-- ===== Console variant, refrig_cycle_calc_simple.py lines 80-207 =====

/-- Console evaporator loop body: `saturation_temp_evap` (lines 88-95). -/
def saturation_temp_evap_simple (cp : PropsSI) (i : CycleInputs) : ℚ :=
  if i.evapByPressure then cp "T" "P" (convert_to_si "P" i.evapValue) "Q" 1 i.refrigerant
  else convert_to_si "T" i.evapValue

/-- Console evaporator loop body: `low_pressure` (lines 88-95). -/
def low_pressure_simple (cp : PropsSI) (i : CycleInputs) : ℚ :=
  if i.evapByPressure then convert_to_si "P" i.evapValue
  else cp "P" "T" (convert_to_si "T" i.evapValue) "Q" 1 i.refrigerant

/-- Console condenser loop body: `saturation_temp_cond` (lines 113-120). -/
def saturation_temp_cond_simple (cp : PropsSI) (i : CycleInputs) : ℚ :=
  if i.condByPressure then cp "T" "P" (convert_to_si "P" i.condValue) "Q" 1 i.refrigerant
  else convert_to_si "T" i.condValue

/-- Console condenser loop body: `high_pressure` (lines 113-120). -/
def high_pressure_simple (cp : PropsSI) (i : CycleInputs) : ℚ :=
  if i.condByPressure then convert_to_si "P" i.condValue
  else cp "P" "T" (convert_to_si "T" i.condValue) "Q" 1 i.refrigerant

/-- Source `superheat` (lines 139-140): offset in K, plus 0.001. -/
def superheat_simple (i : CycleInputs) : ℚ :=
  convert_to_si "T" i.superheatF - convert_to_si "T" 0 + 0.001

/-- Source `subcooling` (lines 141-142). -/
def subcooling_simple (i : CycleInputs) : ℚ :=
  convert_to_si "T" i.subcoolingF - convert_to_si "T" 0 + 0.001

/-- Source `isentrop_eff` after the division by 100 (line 149). -/
def isentrop_eff_simple (i : CycleInputs) : ℚ := i.effPct / 100

/-- Source `mass_flow` (line 167). -/
def mass_flow_simple (i : CycleInputs) : ℚ := convert_to_si "M" i.massFlowLbMin

/-- Source `state_1_pressure` (line 171). -/
def state_1_pressure_simple (cp : PropsSI) (i : CycleInputs) : ℚ :=
  low_pressure_simple cp i

/-- Source `state_1_temp` (line 172). -/
def state_1_temp_simple (cp : PropsSI) (i : CycleInputs) : ℚ :=
  saturation_temp_evap_simple cp i + superheat_simple i

/-- Source `state_1_density` (line 173). -/
def state_1_density_simple (cp : PropsSI) (i : CycleInputs) : ℚ :=
  cp "D" "P" (state_1_pressure_simple cp i) "T" (state_1_temp_simple cp i) i.refrigerant

/-- Source `state_1_enthalpy` (line 174). -/
def state_1_enthalpy_simple (cp : PropsSI) (i : CycleInputs) : ℚ :=
  cp "H" "P" (state_1_pressure_simple cp i) "T" (state_1_temp_simple cp i) i.refrigerant

/-- Source `state_1_entropy` (line 175). -/
def state_1_entropy_simple (cp : PropsSI) (i : CycleInputs) : ℚ :=
  cp "S" "P" (state_1_pressure_simple cp i) "T" (state_1_temp_simple cp i) i.refrigerant

/-- Source `state_2_pressure` (line 178). -/
def state_2_pressure_simple (cp : PropsSI) (i : CycleInputs) : ℚ :=
  high_pressure_simple cp i

/-- Source `state_2_enthalpy_ideal` (line 179). -/
def state_2_enthalpy_ideal_simple (cp : PropsSI) (i : CycleInputs) : ℚ :=
  cp "H" "P" (state_2_pressure_simple cp i) "S" (state_1_entropy_simple cp i) i.refrigerant

/-- Source `state_2_enthalpy_actual` (line 180). -/
def state_2_enthalpy_actual_simple (cp : PropsSI) (i : CycleInputs) : ℚ :=
  state_1_enthalpy_simple cp i +
    (state_2_enthalpy_ideal_simple cp i - state_1_enthalpy_simple cp i) / isentrop_eff_simple i

/-- Source `state_2_temp` (line 181). -/
def state_2_temp_simple (cp : PropsSI) (i : CycleInputs) : ℚ :=
  cp "T" "P" (state_2_pressure_simple cp i) "H" (state_2_enthalpy_actual_simple cp i) i.refrigerant

/-- Source `state_2_density` (line 182). -/
def state_2_density_simple (cp : PropsSI) (i : CycleInputs) : ℚ :=
  cp "D" "P" (state_2_pressure_simple cp i) "H" (state_2_enthalpy_actual_simple cp i) i.refrigerant

/-- Source `state_2_entropy` (line 183). -/
def state_2_entropy_simple (cp : PropsSI) (i : CycleInputs) : ℚ :=
  cp "S" "P" (state_2_pressure_simple cp i) "H" (state_2_enthalpy_actual_simple cp i) i.refrigerant

/-- Source `state_3_pressure` (line 186). -/
def state_3_pressure_simple (cp : PropsSI) (i : CycleInputs) : ℚ :=
  state_2_pressure_simple cp i

/-- Source `sat_liq_temp_cond` (line 187). -/
def sat_liq_temp_cond_simple (cp : PropsSI) (i : CycleInputs) : ℚ :=
  cp "T" "P" (state_3_pressure_simple cp i) "Q" 0 i.refrigerant

/-- Source `state_3_temp` (line 188). -/
def state_3_temp_simple (cp : PropsSI) (i : CycleInputs) : ℚ :=
  sat_liq_temp_cond_simple cp i - subcooling_simple i

/-- Source `state_3_density` (line 189). -/
def state_3_density_simple (cp : PropsSI) (i : CycleInputs) : ℚ :=
  cp "D" "P" (state_3_pressure_simple cp i) "T" (state_3_temp_simple cp i) i.refrigerant

/-- Source `state_3_enthalpy` (line 190). -/
def state_3_enthalpy_simple (cp : PropsSI) (i : CycleInputs) : ℚ :=
  cp "H" "P" (state_3_pressure_simple cp i) "T" (state_3_temp_simple cp i) i.refrigerant

/-- Source `state_3_entropy` (line 191). -/
def state_3_entropy_simple (cp : PropsSI) (i : CycleInputs) : ℚ :=
  cp "S" "P" (state_3_pressure_simple cp i) "T" (state_3_temp_simple cp i) i.refrigerant

/-- Source `state_4_pressure` (line 194). -/
def state_4_pressure_simple (cp : PropsSI) (i : CycleInputs) : ℚ :=
  low_pressure_simple cp i

/-- Source `state_4_enthalpy` (line 195): isenthalpic expansion. -/
def state_4_enthalpy_simple (cp : PropsSI) (i : CycleInputs) : ℚ :=
  state_3_enthalpy_simple cp i

/-- Source `state_4_temp` (line 196). -/
def state_4_temp_simple (cp : PropsSI) (i : CycleInputs) : ℚ :=
  cp "T" "P" (state_4_pressure_simple cp i) "H" (state_4_enthalpy_simple cp i) i.refrigerant

/-- Source `state_4_density` (line 197). -/
def state_4_density_simple (cp : PropsSI) (i : CycleInputs) : ℚ :=
  cp "D" "P" (state_4_pressure_simple cp i) "H" (state_4_enthalpy_simple cp i) i.refrigerant

/-- Source `state_4_entropy` (line 198). -/
def state_4_entropy_simple (cp : PropsSI) (i : CycleInputs) : ℚ :=
  cp "S" "P" (state_4_pressure_simple cp i) "H" (state_4_enthalpy_simple cp i) i.refrigerant

/-- Source `state_4_quality` (line 199). -/
def state_4_quality_simple (cp : PropsSI) (i : CycleInputs) : ℚ :=
  cp "Q" "P" (state_4_pressure_simple cp i) "H" (state_4_enthalpy_simple cp i) i.refrigerant

/-- Whether lines 200-201 print the two-phase warning. -/
def quality_warning_simple (cp : PropsSI) (i : CycleInputs) : Bool :=
  if 0 ≤ state_4_quality_simple cp i ∧ state_4_quality_simple cp i ≤ 1 then false else true

/-- Source `compressor_work` (line 204). -/
def compressor_work_simple (cp : PropsSI) (i : CycleInputs) : ℚ :=
  mass_flow_simple i * (state_2_enthalpy_actual_simple cp i - state_1_enthalpy_simple cp i)

/-- Source `heat_removed` (line 205). -/
def heat_removed_simple (cp : PropsSI) (i : CycleInputs) : ℚ :=
  mass_flow_simple i * (state_1_enthalpy_simple cp i - state_4_enthalpy_simple cp i)

/-- Source `heat_rejected` (line 206). -/
def heat_rejected_simple (cp : PropsSI) (i : CycleInputs) : ℚ :=
  mass_flow_simple i * (state_2_enthalpy_actual_simple cp i - state_3_enthalpy_simple cp i)

/-- Source `COP` (line 207). -/
def COP_simple (cp : PropsSI) (i : CycleInputs) : ℚ :=
  if compressor_work_simple cp i ≠ 0
  then heat_removed_simple cp i / compressor_work_simple cp i else 0

/-- The console variant's whole run on already-accepted inputs. -/
def evaluate_cycle_simple (cp : PropsSI) (i : CycleInputs) : CycleResult :=
  { state1 := ⟨state_1_temp_simple cp i, state_1_pressure_simple cp i,
      state_1_density_simple cp i, state_1_enthalpy_simple cp i, state_1_entropy_simple cp i⟩
    state2 := ⟨state_2_temp_simple cp i, state_2_pressure_simple cp i,
      state_2_density_simple cp i, state_2_enthalpy_actual_simple cp i, state_2_entropy_simple cp i⟩
    state3 := ⟨state_3_temp_simple cp i, state_3_pressure_simple cp i,
      state_3_density_simple cp i, state_3_enthalpy_simple cp i, state_3_entropy_simple cp i⟩
    state4 := ⟨state_4_temp_simple cp i, state_4_pressure_simple cp i,
      state_4_density_simple cp i, state_4_enthalpy_simple cp i, state_4_entropy_simple cp i⟩
    state4_quality := some (state_4_quality_simple cp i)
    quality_warning := quality_warning_simple cp i
    compressor_work := compressor_work_simple cp i
    heat_removed := heat_removed_simple cp i
    heat_rejected := heat_rejected_simple cp i
    COP := COP_simple cp i }

-- ===== GUI variant, refrig_cycle_calc_GUI.py `calculate` lines 240-298 =====

/-- Source `sat_evap_T` (lines 247-252). -/
def sat_evap_T_gui (cp : PropsSI) (i : CycleInputs) : ℚ :=
  if i.evapByPressure then cp "T" "P" (convert_to_si_gui "P" i.evapValue) "Q" 1 i.refrigerant
  else convert_to_si_gui "T" i.evapValue

/-- Source `low_pressure` (lines 247-252). -/
def low_pressure_gui (cp : PropsSI) (i : CycleInputs) : ℚ :=
  if i.evapByPressure then convert_to_si_gui "P" i.evapValue
  else cp "P" "T" (convert_to_si_gui "T" i.evapValue) "Q" 1 i.refrigerant

/-- Source `sat_cond_T` (lines 255-260). -/
def sat_cond_T_gui (cp : PropsSI) (i : CycleInputs) : ℚ :=
  if i.condByPressure then cp "T" "P" (convert_to_si_gui "P" i.condValue) "Q" 1 i.refrigerant
  else convert_to_si_gui "T" i.condValue

/-- Source `high_pressure` (lines 255-260). -/
def high_pressure_gui (cp : PropsSI) (i : CycleInputs) : ℚ :=
  if i.condByPressure then convert_to_si_gui "P" i.condValue
  else cp "P" "T" (convert_to_si_gui "T" i.condValue) "Q" 1 i.refrigerant

/-- Source `superheat_K` (line 263): clamped below at 0.0001 K. -/
def superheat_K_gui (i : CycleInputs) : ℚ := max 0.0001 (i.superheatF * 5 / 9)

/-- Source `subcooling_K` (line 264). -/
def subcooling_K_gui (i : CycleInputs) : ℚ := max 0.0001 (i.subcoolingF * 5 / 9)

/-- Source `isentropic_eff` after `/= 100` (line 244). -/
def isentropic_eff_gui (i : CycleInputs) : ℚ := i.effPct / 100

/-- Source `mass_flow` (line 265). -/
def mass_flow_gui (i : CycleInputs) : ℚ := convert_to_si_gui "M" i.massFlowLbMin

/-- Source `T1` (line 269). -/
def T1_gui (cp : PropsSI) (i : CycleInputs) : ℚ := sat_evap_T_gui cp i + superheat_K_gui i

/-- Source `H1` (line 270). -/
def H1_gui (cp : PropsSI) (i : CycleInputs) : ℚ :=
  cp "H" "P" (low_pressure_gui cp i) "T" (T1_gui cp i) i.refrigerant

/-- Source `S1` (line 271). -/
def S1_gui (cp : PropsSI) (i : CycleInputs) : ℚ :=
  cp "S" "P" (low_pressure_gui cp i) "T" (T1_gui cp i) i.refrigerant

/-- Source `D1` (line 272). -/
def D1_gui (cp : PropsSI) (i : CycleInputs) : ℚ :=
  cp "D" "P" (low_pressure_gui cp i) "T" (T1_gui cp i) i.refrigerant

/-- Source `h2s_ideal` (line 275). -/
def h2s_ideal_gui (cp : PropsSI) (i : CycleInputs) : ℚ :=
  cp "H" "P" (high_pressure_gui cp i) "S" (S1_gui cp i) i.refrigerant

/-- Source `H2` (line 276). -/
def H2_gui (cp : PropsSI) (i : CycleInputs) : ℚ :=
  H1_gui cp i + (h2s_ideal_gui cp i - H1_gui cp i) / isentropic_eff_gui i

/-- Source `T2` (line 277). -/
def T2_gui (cp : PropsSI) (i : CycleInputs) : ℚ :=
  cp "T" "P" (high_pressure_gui cp i) "H" (H2_gui cp i) i.refrigerant

/-- Source `S2` (line 278). -/
def S2_gui (cp : PropsSI) (i : CycleInputs) : ℚ :=
  cp "S" "P" (high_pressure_gui cp i) "H" (H2_gui cp i) i.refrigerant

/-- Source `D2` (line 279). -/
def D2_gui (cp : PropsSI) (i : CycleInputs) : ℚ :=
  cp "D" "P" (high_pressure_gui cp i) "H" (H2_gui cp i) i.refrigerant

/-- Source `Tcond_sat` (line 282). -/
def Tcond_sat_gui (cp : PropsSI) (i : CycleInputs) : ℚ :=
  cp "T" "P" (high_pressure_gui cp i) "Q" 0 i.refrigerant

/-- Source `T3` (line 283). -/
def T3_gui (cp : PropsSI) (i : CycleInputs) : ℚ := Tcond_sat_gui cp i - subcooling_K_gui i

/-- Source `H3` (line 284). -/
def H3_gui (cp : PropsSI) (i : CycleInputs) : ℚ :=
  cp "H" "P" (high_pressure_gui cp i) "T" (T3_gui cp i) i.refrigerant

/-- Source `S3` (line 285). -/
def S3_gui (cp : PropsSI) (i : CycleInputs) : ℚ :=
  cp "S" "P" (high_pressure_gui cp i) "T" (T3_gui cp i) i.refrigerant

/-- Source `D3` (line 286). -/
def D3_gui (cp : PropsSI) (i : CycleInputs) : ℚ :=
  cp "D" "P" (high_pressure_gui cp i) "T" (T3_gui cp i) i.refrigerant

/-- Source `H4` (line 289): isenthalpic expansion. -/
def H4_gui (cp : PropsSI) (i : CycleInputs) : ℚ := H3_gui cp i

/-- Source `T4` (line 290). -/
def T4_gui (cp : PropsSI) (i : CycleInputs) : ℚ :=
  cp "T" "P" (low_pressure_gui cp i) "H" (H4_gui cp i) i.refrigerant

/-- Source `S4` (line 291). -/
def S4_gui (cp : PropsSI) (i : CycleInputs) : ℚ :=
  cp "S" "P" (low_pressure_gui cp i) "H" (H4_gui cp i) i.refrigerant

/-- Source `D4` (line 292). -/
def D4_gui (cp : PropsSI) (i : CycleInputs) : ℚ :=
  cp "D" "P" (low_pressure_gui cp i) "H" (H4_gui cp i) i.refrigerant

/-- Source `compressor_work` (line 295). -/
def compressor_work_gui (cp : PropsSI) (i : CycleInputs) : ℚ :=
  mass_flow_gui i * (H2_gui cp i - H1_gui cp i)

/-- Source `heat_removed` (line 296). -/
def heat_removed_gui (cp : PropsSI) (i : CycleInputs) : ℚ :=
  mass_flow_gui i * (H1_gui cp i - H4_gui cp i)

/-- Source `heat_rejected` (line 297). -/
def heat_rejected_gui (cp : PropsSI) (i : CycleInputs) : ℚ :=
  mass_flow_gui i * (H2_gui cp i - H3_gui cp i)

/-- Source `COP` (line 298). -/
def COP_gui (cp : PropsSI) (i : CycleInputs) : ℚ :=
  if compressor_work_gui cp i ≠ 0
  then heat_removed_gui cp i / compressor_work_gui cp i else 0

/-- The GUI variant's `calculate` computation on range-valid inputs.  The
GUI code performs no state-4 quality query and prints no two-phase
warning, so those fields are `none` and `false`. -/
def evaluate_cycle_gui (cp : PropsSI) (i : CycleInputs) : CycleResult :=
  { state1 := ⟨T1_gui cp i, low_pressure_gui cp i, D1_gui cp i, H1_gui cp i, S1_gui cp i⟩
    state2 := ⟨T2_gui cp i, high_pressure_gui cp i, D2_gui cp i, H2_gui cp i, S2_gui cp i⟩
    state3 := ⟨T3_gui cp i, high_pressure_gui cp i, D3_gui cp i, H3_gui cp i, S3_gui cp i⟩
    state4 := ⟨T4_gui cp i, low_pressure_gui cp i, D4_gui cp i, H4_gui cp i, S4_gui cp i⟩
    state4_quality := none
    quality_warning := false
    compressor_work := compressor_work_gui cp i
    heat_removed := heat_removed_gui cp i
    heat_rejected := heat_rejected_gui cp i
    COP := COP_gui cp i }

-- ===== Dashboard variant, refrig_cycle_calc_Streamlit.py `main` lines 99-157 =====

/-- Source `sat_evap_T` (lines 106-111). -/
def sat_evap_T_st (cp : PropsSI) (i : CycleInputs) : ℚ :=
  if i.evapByPressure then cp "T" "P" (convert_to_si_st "P" i.evapValue) "Q" 1 i.refrigerant
  else convert_to_si_st "T" i.evapValue

/-- Source `low_pressure` (lines 106-111). -/
def low_pressure_st (cp : PropsSI) (i : CycleInputs) : ℚ :=
  if i.evapByPressure then convert_to_si_st "P" i.evapValue
  else cp "P" "T" (convert_to_si_st "T" i.evapValue) "Q" 1 i.refrigerant

/-- Source `sat_cond_T` (lines 114-119). -/
def sat_cond_T_st (cp : PropsSI) (i : CycleInputs) : ℚ :=
  if i.condByPressure then cp "T" "P" (convert_to_si_st "P" i.condValue) "Q" 1 i.refrigerant
  else convert_to_si_st "T" i.condValue

/-- Source `high_pressure` (lines 114-119). -/
def high_pressure_st (cp : PropsSI) (i : CycleInputs) : ℚ :=
  if i.condByPressure then convert_to_si_st "P" i.condValue
  else cp "P" "T" (convert_to_si_st "T" i.condValue) "Q" 1 i.refrigerant

/-- Source `superheat_K` (line 122). -/
def superheat_K_st (i : CycleInputs) : ℚ := max 0.0001 (i.superheatF * 5 / 9)

/-- Source `subcooling_K` (line 123). -/
def subcooling_K_st (i : CycleInputs) : ℚ := max 0.0001 (i.subcoolingF * 5 / 9)

/-- Source `isentropic_eff_frac` (line 103). -/
def isentropic_eff_frac_st (i : CycleInputs) : ℚ := i.effPct / 100

/-- Source `mass_flow` (line 124). -/
def mass_flow_st (i : CycleInputs) : ℚ := convert_to_si_st "M" i.massFlowLbMin

/-- Source `T1` (line 128). -/
def T1_st (cp : PropsSI) (i : CycleInputs) : ℚ := sat_evap_T_st cp i + superheat_K_st i

/-- Source `H1` (line 129). -/
def H1_st (cp : PropsSI) (i : CycleInputs) : ℚ :=
  cp "H" "P" (low_pressure_st cp i) "T" (T1_st cp i) i.refrigerant

/-- Source `S1` (line 130). -/
def S1_st (cp : PropsSI) (i : CycleInputs) : ℚ :=
  cp "S" "P" (low_pressure_st cp i) "T" (T1_st cp i) i.refrigerant

/-- Source `D1` (line 131). -/
def D1_st (cp : PropsSI) (i : CycleInputs) : ℚ :=
  cp "D" "P" (low_pressure_st cp i) "T" (T1_st cp i) i.refrigerant

/-- Source `h2s_ideal` (line 134). -/
def h2s_ideal_st (cp : PropsSI) (i : CycleInputs) : ℚ :=
  cp "H" "P" (high_pressure_st cp i) "S" (S1_st cp i) i.refrigerant

/-- Source `H2` (line 135). -/
def H2_st (cp : PropsSI) (i : CycleInputs) : ℚ :=
  H1_st cp i + (h2s_ideal_st cp i - H1_st cp i) / isentropic_eff_frac_st i

/-- Source `T2` (line 136). -/
def T2_st (cp : PropsSI) (i : CycleInputs) : ℚ :=
  cp "T" "P" (high_pressure_st cp i) "H" (H2_st cp i) i.refrigerant

/-- Source `S2` (line 137). -/
def S2_st (cp : PropsSI) (i : CycleInputs) : ℚ :=
  cp "S" "P" (high_pressure_st cp i) "H" (H2_st cp i) i.refrigerant

/-- Source `D2` (line 138). -/
def D2_st (cp : PropsSI) (i : CycleInputs) : ℚ :=
  cp "D" "P" (high_pressure_st cp i) "H" (H2_st cp i) i.refrigerant

/-- Source `Tcond_sat` (line 141). -/
def Tcond_sat_st (cp : PropsSI) (i : CycleInputs) : ℚ :=
  cp "T" "P" (high_pressure_st cp i) "Q" 0 i.refrigerant

/-- Source `T3` (line 142). -/
def T3_st (cp : PropsSI) (i : CycleInputs) : ℚ := Tcond_sat_st cp i - subcooling_K_st i

/-- Source `H3` (line 143). -/
def H3_st (cp : PropsSI) (i : CycleInputs) : ℚ :=
  cp "H" "P" (high_pressure_st cp i) "T" (T3_st cp i) i.refrigerant

/-- Source `S3` (line 144). -/
def S3_st (cp : PropsSI) (i : CycleInputs) : ℚ :=
  cp "S" "P" (high_pressure_st cp i) "T" (T3_st cp i) i.refrigerant

/-- Source `D3` (line 145). -/
def D3_st (cp : PropsSI) (i : CycleInputs) : ℚ :=
  cp "D" "P" (high_pressure_st cp i) "T" (T3_st cp i) i.refrigerant

/-- Source `H4` (line 148). -/
def H4_st (cp : PropsSI) (i : CycleInputs) : ℚ := H3_st cp i

/-- Source `T4` (line 149). -/
def T4_st (cp : PropsSI) (i : CycleInputs) : ℚ :=
  cp "T" "P" (low_pressure_st cp i) "H" (H4_st cp i) i.refrigerant

/-- Source `S4` (line 150). -/
def S4_st (cp : PropsSI) (i : CycleInputs) : ℚ :=
  cp "S" "P" (low_pressure_st cp i) "H" (H4_st cp i) i.refrigerant

/-- Source `D4` (line 151). -/
def D4_st (cp : PropsSI) (i : CycleInputs) : ℚ :=
  cp "D" "P" (low_pressure_st cp i) "H" (H4_st cp i) i.refrigerant

/-- Source `compressor_work` (line 154). -/
def compressor_work_st (cp : PropsSI) (i : CycleInputs) : ℚ :=
  mass_flow_st i * (H2_st cp i - H1_st cp i)

/-- Source `heat_removed` (line 155). -/
def heat_removed_st (cp : PropsSI) (i : CycleInputs) : ℚ :=
  mass_flow_st i * (H1_st cp i - H4_st cp i)

/-- Source `heat_rejected` (line 156). -/
def heat_rejected_st (cp : PropsSI) (i : CycleInputs) : ℚ :=
  mass_flow_st i * (H2_st cp i - H3_st cp i)

/-- Source `COP` (line 157). -/
def COP_st (cp : PropsSI) (i : CycleInputs) : ℚ :=
  if compressor_work_st cp i ≠ 0
  then heat_removed_st cp i / compressor_work_st cp i else 0

/-- The dashboard variant's calculation on range-valid inputs.  Like the
GUI it queries no state-4 vapor quality and prints no two-phase warning. -/
def evaluate_cycle_st (cp : PropsSI) (i : CycleInputs) : CycleResult :=
  { state1 := ⟨T1_st cp i, low_pressure_st cp i, D1_st cp i, H1_st cp i, S1_st cp i⟩
    state2 := ⟨T2_st cp i, high_pressure_st cp i, D2_st cp i, H2_st cp i, S2_st cp i⟩
    state3 := ⟨T3_st cp i, high_pressure_st cp i, D3_st cp i, H3_st cp i, S3_st cp i⟩
    state4 := ⟨T4_st cp i, low_pressure_st cp i, D4_st cp i, H4_st cp i, S4_st cp i⟩
    state4_quality := none
    quality_warning := false
    compressor_work := compressor_work_st cp i
    heat_removed := heat_removed_st cp i
    heat_rejected := heat_rejected_st cp i
    COP := COP_st cp i }

-- ===== Console input loops and GUI input validation =====

/-- Outcome of a console prompt on a stream of parsed user entries:
`accepted v` when the code breaks out of its loop with value `v`,
`crashed` when an exception escapes uncaught, `pending` when the supplied
entries are exhausted with the prompt still looping. -/
inductive PromptOutcome (α : Type) where
  | accepted (v : α)
  | crashed
  | pending
deriving DecidableEq

/-- Source `refrigerant_list` (refrig_cycle_calc_simple.py line 60). -/
def refrigerant_list : List String := ["R22", "R134a", "R32", "R410A", "R507A"]

/-- Python list indexing, negative indices counting from the end;
`none` models an IndexError. -/
def pyListGet (l : List String) (n : ℤ) : Option String :=
  if 0 ≤ n then l.get? n.toNat
  else if (-n).toNat ≤ l.length then l.get? (l.length - (-n).toNat)
  else none

/-- The console refrigerant prompt (lines 62-63): `int(input(...))` and the
list indexing run outside any try block, so a non-numeric entry (parsed as
`none`) or an out-of-range index raises an uncaught exception. -/
def refrigerant_prompt (inp : Option ℤ) : PromptOutcome String :=
  match inp with
  | none => PromptOutcome.crashed
  | some n =>
    match pyListGet refrigerant_list n with
    | some r => PromptOutcome.accepted r
    | none => PromptOutcome.crashed

/-- The console reference-state loop (lines 67-75): `int(input(...))` runs
inside `while True` but outside any try block, so a non-numeric entry
crashes, while an out-of-range integer re-prompts. -/
def ref_state_prompt : List (Option ℤ) → PromptOutcome ℤ
  | [] => PromptOutcome.pending
  | none :: _ => PromptOutcome.crashed
  | some n :: rest =>
    if n = 0 ∨ n = 1 ∨ n = 2 then PromptOutcome.accepted n else ref_state_prompt rest

/-- Source `get_limited_input` (lines 48-57) on a stream of parsed entries:
non-numeric entries (`none`) and out-of-range numbers re-prompt; the first
in-range number is returned. -/
def get_limited_input (lo hi : ℚ) : List (Option ℚ) → Option ℚ
  | [] => none
  | none :: rest => get_limited_input lo hi rest
  | some v :: rest =>
    if lo ≤ v ∧ v ≤ hi then some v else get_limited_input lo hi rest

/-- The input gathering and range validation of the GUI `calculate`
(refrig_cycle_calc_GUI.py lines 213-238): a field whose `float(...)` fails
is `none`; every failure path ends in an error dialog (`Except.error`). -/
def parse_gui_inputs (evap cond sh sc eff mf : Option ℚ) :
    Except String (ℚ × ℚ × ℚ × ℚ × ℚ × ℚ) :=
  match evap, cond, sh, sc, eff, mf with
  | some ev, some cv, some s, some c, some e, some m =>
    if ¬(0 ≤ s ∧ s ≤ 30) then Except.error "Superheat must be 0-30 F."
    else if ¬(0 ≤ c ∧ c ≤ 30) then Except.error "Subcooling must be 0-30 F."
    else if ¬(20 ≤ e ∧ e ≤ 100) then Except.error "Isentropic efficiency must be 20-100."
    else if ¬(0 < m) then Except.error "Mass flow rate must be positive."
    else Except.ok (ev, cv, s, c, e, m)
  | _, _, _, _, _, _ => Except.error "could not convert string to float"

/-- The whole GUI `calculate`: parse and range-check the fields, then run
the state-point computation.  No condenser-above-evaporator check exists on
this path. -/
def gui_calculate (cp : PropsSI) (refrigerant : String) (evapByP condByP : Bool)
    (evap cond sh sc eff mf : Option ℚ) : Except String CycleResult :=
  match parse_gui_inputs evap cond sh sc eff mf with
  | Except.error e => Except.error e
  | Except.ok (ev, cv, s, c, e, m) =>
    Except.ok (evaluate_cycle_gui cp ⟨refrigerant, evapByP, ev, condByP, cv, s, c, e, m⟩)

/-- One condenser attempt of the console loop (lines 113-120): resolve the
entered pressure or temperature to the pair (saturation temperature,
pressure). -/
def condenser_resolve (cp : PropsSI) (fluid : String) (byPressure : Bool) (v : ℚ) : ℚ × ℚ :=
  if byPressure then
    let hp := convert_to_si "P" v
    (cp "T" "P" hp "Q" 1 fluid, hp)
  else
    let t := convert_to_si "T" v
    (t, cp "P" "T" t "Q" 1 fluid)

/-- The console condenser input loop (lines 106-132) on a stream of
attempts: the loop breaks with the first attempt whose saturation
temperature and pressure strictly exceed the evaporator's, and re-prompts
otherwise. -/
def condenser_loop (cp : PropsSI) (fluid : String) (satTe lowP : ℚ) :
    List (Bool × ℚ) → Option (ℚ × ℚ)
  | [] => none
  | a :: rest =>
    let r := condenser_resolve cp fluid a.1 a.2
    if satTe < r.1 ∧ lowP < r.2 then some r
    else condenser_loop cp fluid satTe lowP rest

-- ===== Concrete test fixtures =====

/-- A concrete property oracle for witnesses and counterexamples: every
query answers the sum of the two input values. -/
def cpTest : PropsSI := fun _ _ v1 _ v2 _ => v1 + v2

/-- The spec's scenario inputs: R134a, evaporator 40 °F, condenser 110 °F,
superheat and subcooling entered as 0 °F, 70 % efficiency, 5 lb/min. -/
def inpTest : CycleInputs :=
  ⟨"R134a", false, 40, false, 110, 0, 0, 70, 5⟩

/-- Inputs with the condenser boundary below the evaporator boundary
(condenser 40 °F, evaporator 110 °F). -/
def inpTestRev : CycleInputs :=
  ⟨"R134a", false, 110, false, 40, 10, 10, 70, 5⟩

-- ===== Theorems =====

/-- C1: in every one of the three variants, the computed heat_rejected
equals compressor_work plus heat_removed exactly: with state-4 enthalpy set
equal to state-3 enthalpy, ṁ(h2−h3) = ṁ(h2−h1) + ṁ(h1−h4). -/
theorem energy_balance_all_variants (cp : PropsSI) (i : CycleInputs) :
    (evaluate_cycle_simple cp i).heat_rejected =
      (evaluate_cycle_simple cp i).compressor_work + (evaluate_cycle_simple cp i).heat_removed ∧
    (evaluate_cycle_gui cp i).heat_rejected =
      (evaluate_cycle_gui cp i).compressor_work + (evaluate_cycle_gui cp i).heat_removed ∧
    (evaluate_cycle_st cp i).heat_rejected =
      (evaluate_cycle_st cp i).compressor_work + (evaluate_cycle_st cp i).heat_removed := by
  refine ⟨?_, ?_, ?_⟩ <;>
    simp only [evaluate_cycle_simple, evaluate_cycle_gui, evaluate_cycle_st,
      heat_rejected_simple, compressor_work_simple, heat_removed_simple, state_4_enthalpy_simple,
      heat_rejected_gui, compressor_work_gui, heat_removed_gui, H4_gui,
      heat_rejected_st, compressor_work_st, heat_removed_st, H4_st] <;>
    ring

/-- C8: in every variant the actual state-2 enthalpy is
h2 = h1 + (h2s − h1)/η, where h2s is the enthalpy queried at the condenser
pressure and state-1 entropy and η is the entered percentage divided
by 100. -/
theorem state2_enthalpy_formula (cp : PropsSI) (i : CycleInputs) :
    (state_2_enthalpy_actual_simple cp i =
        state_1_enthalpy_simple cp i +
          (state_2_enthalpy_ideal_simple cp i - state_1_enthalpy_simple cp i) / (i.effPct / 100) ∧
      state_2_enthalpy_ideal_simple cp i =
        cp "H" "P" (high_pressure_simple cp i) "S" (state_1_entropy_simple cp i) i.refrigerant) ∧
    (H2_gui cp i = H1_gui cp i + (h2s_ideal_gui cp i - H1_gui cp i) / (i.effPct / 100) ∧
      h2s_ideal_gui cp i =
        cp "H" "P" (high_pressure_gui cp i) "S" (S1_gui cp i) i.refrigerant) ∧
    (H2_st cp i = H1_st cp i + (h2s_ideal_st cp i - H1_st cp i) / (i.effPct / 100) ∧
      h2s_ideal_st cp i =
        cp "H" "P" (high_pressure_st cp i) "S" (S1_st cp i) i.refrigerant) :=
  ⟨⟨rfl, rfl⟩, ⟨rfl, rfl⟩, ⟨rfl, rfl⟩⟩

/-- C5: in every variant, COP equals heat_removed / compressor_work exactly
when compressor_work is nonzero, and COP is 0 when compressor_work is 0. -/
theorem cop_guarded (cp : PropsSI) (i : CycleInputs) :
    (compressor_work_simple cp i ≠ 0 →
        COP_simple cp i = heat_removed_simple cp i / compressor_work_simple cp i) ∧
    (compressor_work_simple cp i = 0 → COP_simple cp i = 0) ∧
    (compressor_work_gui cp i ≠ 0 →
        COP_gui cp i = heat_removed_gui cp i / compressor_work_gui cp i) ∧
    (compressor_work_gui cp i = 0 → COP_gui cp i = 0) ∧
    (compressor_work_st cp i ≠ 0 →
        COP_st cp i = heat_removed_st cp i / compressor_work_st cp i) ∧
    (compressor_work_st cp i = 0 → COP_st cp i = 0) := by
  refine ⟨?_, ?_, ?_, ?_, ?_, ?_⟩ <;> intro h <;>
    simp [COP_simple, COP_gui, COP_st, h]

/-- Witness for C5: at the spec's scenario inputs and the concrete test
oracle, the compressor work is nonzero and COP is the exact quotient. -/
theorem cop_guarded_witness :
    COP_simple cpTest inpTest =
      heat_removed_simple cpTest inpTest / compressor_work_simple cpTest inpTest :=
  (cop_guarded cpTest inpTest).1 (by
    simp [compressor_work_simple, mass_flow_simple, state_2_enthalpy_actual_simple,
      state_1_enthalpy_simple, state_2_enthalpy_ideal_simple, isentrop_eff_simple,
      state_2_pressure_simple, state_1_entropy_simple, state_1_pressure_simple,
      state_1_temp_simple, saturation_temp_evap_simple, low_pressure_simple,
      high_pressure_simple, saturation_temp_cond_simple, superheat_simple,
      convert_to_si, degFtoK, lbmMinToKgS, cpTest, inpTest]
    norm_num)

/-- C7 counterexample: the claim says every variant queries the state-4
vapor quality, but the GUI variant's result at the scenario inputs holds no
quality query at all (and likewise emits no warning). -/
theorem state4_quality_not_queried_gui :
    (evaluate_cycle_gui cpTest inpTest).state4_quality = none ∧
    (evaluate_cycle_gui cpTest inpTest).quality_warning = false :=
  ⟨rfl, rfl⟩

/-- C7 as amended: in every variant state 4 is the isenthalpic expansion
(h4 = h3) at the evaporator pressure; the console variant queries the vapor
quality and warns exactly when it lies outside [0,1]; the GUI and dashboard
variants neither query the quality nor warn. -/
theorem state4_isenthalpic_quality (cp : PropsSI) (i : CycleInputs) :
    (state_4_enthalpy_simple cp i = state_3_enthalpy_simple cp i ∧
      state_4_pressure_simple cp i = low_pressure_simple cp i ∧
      (evaluate_cycle_simple cp i).state4_quality =
        some (cp "Q" "P" (low_pressure_simple cp i) "H" (state_3_enthalpy_simple cp i)
          i.refrigerant) ∧
      (quality_warning_simple cp i = true ↔
        ¬(0 ≤ state_4_quality_simple cp i ∧ state_4_quality_simple cp i ≤ 1))) ∧
    (H4_gui cp i = H3_gui cp i ∧
      (evaluate_cycle_gui cp i).state4.pressure = low_pressure_gui cp i ∧
      (evaluate_cycle_gui cp i).state4_quality = none ∧
      (evaluate_cycle_gui cp i).quality_warning = false) ∧
    (H4_st cp i = H3_st cp i ∧
      (evaluate_cycle_st cp i).state4.pressure = low_pressure_st cp i ∧
      (evaluate_cycle_st cp i).state4_quality = none ∧
      (evaluate_cycle_st cp i).quality_warning = false) := by
  refine ⟨⟨rfl, rfl, rfl, ?_⟩, ⟨rfl, rfl, rfl, rfl⟩, ⟨rfl, rfl, rfl, rfl⟩⟩
  by_cases h : 0 ≤ state_4_quality_simple cp i ∧ state_4_quality_simple cp i ≤ 1 <;>
    simp [quality_warning_simple, h]

/-- Source `psiToPa` is nonzero. -/
theorem psiToPa_ne_zero : psiToPa ≠ 0 := by norm_num [psiToPa]

/-- Source `btuLbToJkg` is nonzero. -/
theorem btuLbToJkg_ne_zero : btuLbToJkg ≠ 0 := by norm_num [btuLbToJkg]

/-- Source `btuLbFToJkgK` is nonzero. -/
theorem btuLbFToJkgK_ne_zero : btuLbFToJkgK ≠ 0 := by norm_num [btuLbFToJkgK]

/-- Source `lbmMinToKgS` is nonzero. -/
theorem lbmMinToKgS_ne_zero : lbmMinToKgS ≠ 0 := by norm_num [lbmMinToKgS]

/-- C2 counterexample: the SI→IP→SI round trip fails for the density kind
"D" (both conversion directions multiply by the same kg/m³ → lbm/ft³
factor in the console variant, and the GUI `convert_to_si` has no "D"
entry at all) and for the kind "Heat" (no `convert_to_si` entry). -/
theorem roundtrip_fails_for_D_and_Heat :
    convert_to_si "D" (convert_from_si "D" 1) ≠ 1 ∧
    convert_to_si_gui "D" (convert_from_si_gui "D" 1) ≠ 1 ∧
    convert_to_si "Heat" (convert_from_si "Heat" 1) ≠ 1 := by
  refine ⟨?_, ?_, ?_⟩
  · show 1 * kgM3ToLbmFt3 * kgM3ToLbmFt3 ≠ 1
    norm_num [kgM3ToLbmFt3]
  · show 1 * kgM3ToLbmFt3 ≠ 1
    norm_num [kgM3ToLbmFt3]
  · show 1 * wattToBtuHr ≠ 1
    norm_num [wattToBtuHr]

/-- C2 as amended: the SI→IP→SI round trip returns the original value
exactly for the kinds T, P, H, S in all three variants and for M in the
console variant (the pairs of entries are mutual inverses there); it fails
for D and Heat, whose `convert_to_si` entries are not inverses of the
`convert_from_si` ones. -/
theorem roundtrip_T_P_H_S_M (v : ℚ) :
    (convert_to_si "T" (convert_from_si "T" v) = v ∧
      convert_to_si "P" (convert_from_si "P" v) = v ∧
      convert_to_si "H" (convert_from_si "H" v) = v ∧
      convert_to_si "S" (convert_from_si "S" v) = v ∧
      convert_to_si "M" (convert_from_si "M" v) = v) ∧
    (convert_to_si_gui "T" (convert_from_si_gui "T" v) = v ∧
      convert_to_si_gui "P" (convert_from_si_gui "P" v) = v ∧
      convert_to_si_gui "H" (convert_from_si_gui "H" v) = v ∧
      convert_to_si_gui "S" (convert_from_si_gui "S" v) = v) ∧
    (convert_to_si_st "T" (convert_from_si_st "T" v) = v ∧
      convert_to_si_st "P" (convert_from_si_st "P" v) = v ∧
      convert_to_si_st "H" (convert_from_si_st "H" v) = v ∧
      convert_to_si_st "S" (convert_from_si_st "S" v) = v) := by
  have hT : degFtoK (kToDegF v) = v := by unfold degFtoK kToDegF; ring
  exact ⟨⟨hT, div_mul_cancel₀ v psiToPa_ne_zero, div_mul_cancel₀ v btuLbToJkg_ne_zero,
      div_mul_cancel₀ v btuLbFToJkgK_ne_zero, div_mul_cancel₀ v lbmMinToKgS_ne_zero⟩,
    ⟨hT, div_mul_cancel₀ v psiToPa_ne_zero, div_mul_cancel₀ v btuLbToJkg_ne_zero,
      div_mul_cancel₀ v btuLbFToJkgK_ne_zero⟩,
    ⟨hT, div_mul_cancel₀ v psiToPa_ne_zero, div_mul_cancel₀ v btuLbToJkg_ne_zero,
      div_mul_cancel₀ v btuLbFToJkgK_ne_zero⟩⟩

/-- C3 counterexample: at the spec's scenario inputs (superheat entered as
0 °F) and the concrete test oracle, the console variant and the GUI
variant disagree already on the state-1 temperature: the console applies a
+0.001 K offset where the GUI clamps to 0.0001 K. -/
theorem console_gui_results_differ :
    (evaluate_cycle_simple cpTest inpTest).state1.temp ≠
      (evaluate_cycle_gui cpTest inpTest).state1.temp := by
  simp [evaluate_cycle_simple, evaluate_cycle_gui, state_1_temp_simple, T1_gui,
    saturation_temp_evap_simple, sat_evap_T_gui, superheat_simple, superheat_K_gui,
    convert_to_si, convert_to_si_gui, inpTest, degFtoK, cpTest]
  norm_num [max_def]

/-- C3 as amended: the GUI and the web-dashboard variants perform the same
calculation and produce identical states and metrics for identical inputs;
the console variant differs, because its applied superheat/subcooling
offsets are the converted value plus 0.001 K while the GUI and dashboard
clamp the converted value to at least 0.0001 K. -/
theorem gui_dashboard_identical (cp : PropsSI) (i : CycleInputs) :
    evaluate_cycle_gui cp i = evaluate_cycle_st cp i ∧
    superheat_simple i = i.superheatF * 5 / 9 + 0.001 ∧
    subcooling_simple i = i.subcoolingF * 5 / 9 + 0.001 ∧
    superheat_K_gui i = max 0.0001 (i.superheatF * 5 / 9) ∧
    superheat_K_st i = max 0.0001 (i.superheatF * 5 / 9) := by
  refine ⟨rfl, ?_, ?_, rfl, rfl⟩
  · show degFtoK i.superheatF - degFtoK 0 + 0.001 = i.superheatF * 5 / 9 + 0.001
    unfold degFtoK; ring
  · show degFtoK i.subcoolingF - degFtoK 0 + 0.001 = i.subcoolingF * 5 / 9 + 0.001
    unfold degFtoK; ring

/-- C9: with isentropic efficiency between 20 % and 100 % and a valid
boundary combination — validity meaning the property library returns an
isentropic-discharge enthalpy at the condenser pressure no smaller than the
state-1 enthalpy — every variant computes a state-2 enthalpy at least the
state-1 enthalpy. -/
theorem compression_adds_energy (cp : PropsSI) (i : CycleInputs)
    (heff : 20 ≤ i.effPct) (heff2 : i.effPct ≤ 100)
    (hcon : state_1_enthalpy_simple cp i ≤ state_2_enthalpy_ideal_simple cp i)
    (hg : H1_gui cp i ≤ h2s_ideal_gui cp i)
    (hst : H1_st cp i ≤ h2s_ideal_st cp i) :
    state_1_enthalpy_simple cp i ≤ state_2_enthalpy_actual_simple cp i ∧
    H1_gui cp i ≤ H2_gui cp i ∧
    H1_st cp i ≤ H2_st cp i := by
  have hpos : (0 : ℚ) < i.effPct / 100 := by
    apply div_pos <;> linarith
  refine ⟨?_, ?_, ?_⟩
  · unfold state_2_enthalpy_actual_simple isentrop_eff_simple
    have := div_nonneg (sub_nonneg.2 hcon) (le_of_lt hpos)
    linarith
  · unfold H2_gui isentropic_eff_gui
    have := div_nonneg (sub_nonneg.2 hg) (le_of_lt hpos)
    linarith
  · unfold H2_st isentropic_eff_frac_st
    have := div_nonneg (sub_nonneg.2 hst) (le_of_lt hpos)
    linarith

/-- Witness for C9 at the scenario inputs with the concrete test oracle
(70 % efficiency; the oracle yields h2s ≥ h1 there). -/
theorem compression_adds_energy_witness :
    H1_gui cpTest inpTest ≤ H2_gui cpTest inpTest :=
  (compression_adds_energy cpTest inpTest (by norm_num [inpTest]) (by norm_num [inpTest])
    (by
      simp [state_1_enthalpy_simple, state_2_enthalpy_ideal_simple, state_2_pressure_simple,
        state_1_entropy_simple, state_1_pressure_simple, state_1_temp_simple,
        saturation_temp_evap_simple, low_pressure_simple, high_pressure_simple,
        saturation_temp_cond_simple, superheat_simple, convert_to_si, degFtoK, cpTest, inpTest]
      norm_num)
    (by
      simp [H1_gui, h2s_ideal_gui, S1_gui, T1_gui, sat_evap_T_gui, low_pressure_gui,
        high_pressure_gui, sat_cond_T_gui, superheat_K_gui, convert_to_si_gui, degFtoK,
        cpTest, inpTest]
      norm_num [max_def])
    (by
      simp [H1_st, h2s_ideal_st, S1_st, T1_st, sat_evap_T_st, low_pressure_st,
        high_pressure_st, sat_cond_T_st, superheat_K_st, convert_to_si_st, degFtoK,
        cpTest, inpTest]
      norm_num [max_def])).2.1

/-- C10: for accepted superheat and subcooling entries in [0, 30] °F, the
offsets every variant actually applies are strictly positive (the console
adds 0.001 K, the GUI and dashboard clamp to at least 0.0001 K), so state 1
sits strictly above the evaporator saturation temperature and state 3
strictly below the condenser saturated-liquid temperature. -/
theorem offsets_strictly_positive (cp : PropsSI) (i : CycleInputs)
    (hsh0 : 0 ≤ i.superheatF) (hsh30 : i.superheatF ≤ 30)
    (hsc0 : 0 ≤ i.subcoolingF) (hsc30 : i.subcoolingF ≤ 30) :
    (0 < superheat_simple i ∧ 0 < subcooling_simple i ∧
      saturation_temp_evap_simple cp i < state_1_temp_simple cp i ∧
      state_3_temp_simple cp i < sat_liq_temp_cond_simple cp i) ∧
    (0 < superheat_K_gui i ∧ 0 < subcooling_K_gui i ∧
      sat_evap_T_gui cp i < T1_gui cp i ∧
      T3_gui cp i < Tcond_sat_gui cp i) ∧
    (0 < superheat_K_st i ∧ 0 < subcooling_K_st i ∧
      sat_evap_T_st cp i < T1_st cp i ∧
      T3_st cp i < Tcond_sat_st cp i) := by
  have hshp : 0 < superheat_simple i := by
    show 0 < degFtoK i.superheatF - degFtoK 0 + 0.001
    unfold degFtoK; norm_num; linarith
  have hscp : 0 < subcooling_simple i := by
    show 0 < degFtoK i.subcoolingF - degFtoK 0 + 0.001
    unfold degFtoK; norm_num; linarith
  have hshg : 0 < superheat_K_gui i :=
    lt_max_iff.mpr (Or.inl (by norm_num))
  have hscg : 0 < subcooling_K_gui i :=
    lt_max_iff.mpr (Or.inl (by norm_num))
  have hshs : 0 < superheat_K_st i :=
    lt_max_iff.mpr (Or.inl (by norm_num))
  have hscs : 0 < subcooling_K_st i :=
    lt_max_iff.mpr (Or.inl (by norm_num))
  refine ⟨⟨hshp, hscp, ?_, ?_⟩, ⟨hshg, hscg, ?_, ?_⟩, ⟨hshs, hscs, ?_, ?_⟩⟩
  · unfold state_1_temp_simple; linarith
  · unfold state_3_temp_simple; linarith
  · unfold T1_gui; linarith
  · unfold T3_gui; linarith
  · unfold T1_st; linarith
  · unfold T3_st; linarith

/-- Witness for C10 at the scenario inputs (superheat and subcooling
entered as 0 °F): the console state-1 temperature still strictly exceeds
the evaporator saturation temperature, and the GUI offset is positive. -/
theorem offsets_strictly_positive_witness :
    saturation_temp_evap_simple cpTest inpTest < state_1_temp_simple cpTest inpTest ∧
    0 < superheat_K_gui inpTest :=
  ⟨((offsets_strictly_positive cpTest inpTest (by norm_num [inpTest]) (by norm_num [inpTest])
      (by norm_num [inpTest]) (by norm_num [inpTest])).1).2.2.1,
    ((offsets_strictly_positive cpTest inpTest (by norm_num [inpTest]) (by norm_num [inpTest])
      (by norm_num [inpTest]) (by norm_num [inpTest])).2.1).1⟩

/-- C4: the console condenser loop hands a saturation pair onward only
when the condenser saturation temperature strictly exceeds the
evaporator's and the condenser pressure strictly exceeds the evaporator's,
re-prompting otherwise, while the GUI `calculate` runs the state-point
computation with no such ordering check: whenever the fields parse and
pass the range checks, it returns the computed result even when the
condenser saturation temperature is at or below the evaporator's. -/
theorem condenser_check_console_only (cp : PropsSI) (fluid : String) (satTe lowP : ℚ) :
    (∀ attempts t p, condenser_loop cp fluid satTe lowP attempts = some (t, p) →
        satTe < t ∧ lowP < p) ∧
    (∀ a rest,
        ¬(satTe < (condenser_resolve cp fluid a.1 a.2).1 ∧
            lowP < (condenser_resolve cp fluid a.1 a.2).2) →
        condenser_loop cp fluid satTe lowP (a :: rest) =
          condenser_loop cp fluid satTe lowP rest) ∧
    (∀ (refr : String) (eByP cByP : Bool) (ev cv s c e m : ℚ),
        parse_gui_inputs (some ev) (some cv) (some s) (some c) (some e) (some m) =
          Except.ok (ev, cv, s, c, e, m) →
        sat_cond_T_gui cp ⟨refr, eByP, ev, cByP, cv, s, c, e, m⟩ ≤
          sat_evap_T_gui cp ⟨refr, eByP, ev, cByP, cv, s, c, e, m⟩ →
        gui_calculate cp refr eByP cByP (some ev) (some cv) (some s) (some c) (some e)
            (some m) =
          Except.ok (evaluate_cycle_gui cp ⟨refr, eByP, ev, cByP, cv, s, c, e, m⟩)) := by
  refine ⟨?_, ?_, ?_⟩
  · intro attempts
    induction attempts with
    | nil => intro t p h; simp [condenser_loop] at h
    | cons a rest ih =>
      intro t p h
      simp only [condenser_loop] at h
      split at h
      · rename_i hcond
        simp only [Option.some.injEq] at h
        rw [h] at hcond
        exact hcond
      · exact ih t p h
  · intro a rest h
    simp only [condenser_loop]
    rw [if_neg h]
  · intro refr eByP cByP ev cv s c e m hparse hord
    unfold gui_calculate
    rw [hparse]

/-- Witness for C4: with the test oracle and the reversed boundaries
(evaporator 110 °F, condenser 40 °F — ordering violated), the GUI
calculation still returns a computed result. -/
theorem condenser_check_console_only_witness :
    gui_calculate cpTest "R134a" false false (some 110) (some 40) (some 10) (some 10)
        (some 70) (some 5) = Except.ok (evaluate_cycle_gui cpTest inpTestRev) :=
  (condenser_check_console_only cpTest "R134a" 0 0).2.2 "R134a" false false 110 40 10 10 70 5
    (by norm_num [parse_gui_inputs])
    (by
      simp [sat_cond_T_gui, sat_evap_T_gui, convert_to_si_gui, degFtoK]
      norm_num)

/-- C6 counterexample: a non-numeric entry at the console refrigerant-index
prompt, or at the console reference-state prompt, raises an uncaught
exception instead of re-prompting. -/
theorem console_first_prompts_crash :
    refrigerant_prompt none = PromptOutcome.crashed ∧
    ref_state_prompt [none] = PromptOutcome.crashed :=
  ⟨rfl, rfl⟩

/-- C6 as amended: the console prompts driven by `get_limited_input` (and
the efficiency, mass-flow and boundary loops built the same way) swallow
invalid entries and only ever return in-range numbers; the GUI `calculate`
turns every unparsable field into an error dialog; but the console
refrigerant-index and reference-state prompts run `int(input(...))`
outside any try block, so a non-numeric entry there crashes rather than
re-prompting. -/
theorem input_validation_amended :
    (∀ lo hi xs v, get_limited_input lo hi xs = some v → lo ≤ v ∧ v ≤ hi) ∧
    (∀ lo hi xs, get_limited_input lo hi (none :: xs) = get_limited_input lo hi xs) ∧
    (∀ lo hi w xs, ¬(lo ≤ w ∧ w ≤ hi) →
        get_limited_input lo hi (some w :: xs) = get_limited_input lo hi xs) ∧
    (∀ ev cv s c e m,
        (ev = none ∨ cv = none ∨ s = none ∨ c = none ∨ e = none ∨ m = none) →
        ∃ msg, parse_gui_inputs ev cv s c e m = Except.error msg) ∧
    refrigerant_prompt none = PromptOutcome.crashed ∧
    (∀ rest, ref_state_prompt (none :: rest) = PromptOutcome.crashed) ∧
    (∀ n rest, ¬(n = 0 ∨ n = 1 ∨ n = 2) →
        ref_state_prompt (some n :: rest) = ref_state_prompt rest) := by
  refine ⟨?_, ?_, ?_, ?_, rfl, ?_, ?_⟩
  · intro lo hi xs
    induction xs with
    | nil => intro v h; simp [get_limited_input] at h
    | cons a rest ih =>
      intro v h
      match a with
      | none => exact ih v h
      | some w =>
        simp only [get_limited_input] at h
        split at h
        · rename_i hcond
          simp only [Option.some.injEq] at h
          rw [← h]
          exact hcond
        · exact ih v h
  · intro lo hi xs; rfl
  · intro lo hi w xs h
    simp only [get_limited_input]
    rw [if_neg h]
  · intro ev cv s c e m h
    cases ev <;> cases cv <;> cases s <;> cases c <;> cases e <;> cases m <;>
      first
      | exact ⟨"could not convert string to float", rfl⟩
      | simp_all
  · intro rest; rfl
  · intro n rest h
    simp only [ref_state_prompt]
    rw [if_neg h]

/-- Witness for C6: a concrete in-range entry accepted by
`get_limited_input` lies within its bounds. -/
theorem input_validation_amended_witness : (0 : ℚ) ≤ 5 ∧ (5 : ℚ) ≤ 30 :=
  input_validation_amended.1 0 30 [some 5] 5 (by norm_num [get_limited_input])

end RefrigCycle
